import Mathlib

/-!
Shallow embedding of the authentication and credential-lifecycle subsystem of
the natours application: the auth controller (signup, login, protect,
isLoggedIn, forgotPassword, resetPassword) and the user model (schema hooks,
isCorrectPassword, hasPasswordChangedAfter, createPasswordResetToken).

Times are modelled in milliseconds since the epoch (JavaScript `Date.now()`),
except JWT payload fields (`iat`, `exp`), which are in whole seconds as in the
jsonwebtoken library.  External collaborators (bcryptjs, crypto, jsonwebtoken,
the mongo store) are modelled by their observable contracts.
-/

namespace Natours

/-- Error value carried by `new AppError(message, statusCode)`.  The status
code is optional because one call site (`login` with missing fields) omits it. -/
structure AppError where
  message : String
  statusCode : Option Nat
deriving Repr, DecidableEq

/-- Observable contract of a bcrypt digest (external bcryptjs collaborator):
the digest commits to the per-call salt, the cost factor and the plaintext it
was derived from; `bcrypt.compare` succeeds exactly on that plaintext. -/
structure BcryptDigest where
  cost : Nat
  salt : Nat
  committed : String
deriving Repr, DecidableEq

/-- Model of `bcrypt.hash(plaintext, cost)`; the salt drawn inside the call is
made an explicit oracle argument. -/
def bcryptHash (plaintext : String) (cost salt : Nat) : BcryptDigest :=
  { cost := cost, salt := salt, committed := plaintext }

/-- Model of `bcrypt.compare(candidate, digest)`. -/
def bcryptCompare (candidate : String) (digest : BcryptDigest) : Bool :=
  candidate = digest.committed

/-- Model of `crypto.createHash('sha256').update(s).digest('hex')`: an
injective, deterministic digest (idealisation of a collision-free hash). -/
def sha256Hex (s : String) : String :=
  "sha256$" ++ s

/-- Character-list version of the JavaScript `String.startsWith` test:
does the first list occur at the head of the second? -/
def charListLeads : List Char → List Char → Bool
  | [], _ => true
  | _ :: _, [] => false
  | a :: as, b :: bs => a == b && charListLeads as bs

/-- Model of `String.startsWith` over the character data (the core version is
not kernel-reducible). -/
def startsWithModel (s pat : String) : Bool :=
  charListLeads pat.data s.data

/-- Model of `String.toLowerCase` applied by the schema's `lowercase: true`. -/
def lowercaseModel (s : String) : String :=
  String.mk (s.data.map Char.toLower)

/-- Lower-case hex digit for a value below 16. -/
def hexDigit (n : Nat) : Char :=
  if n < 10 then Char.ofNat (48 + n) else Char.ofNat (87 + n)

/-- Two-character hex rendering of one byte. -/
def byteToHex (b : Nat) : String :=
  String.mk [hexDigit (b / 16 % 16), hexDigit (b % 16)]

/-- Model of `Buffer.toString('hex')` over a byte list
(`crypto.randomBytes(n)` is modelled as an explicit byte-list oracle). -/
def bytesToHex : List Nat → String
  | [] => ""
  | b :: bs => byteToHex b ++ bytesToHex bs

/-- The closed role enumeration of the user schema. -/
inductive Role where
  | user
  | guide
  | leadGuide
  | admin
deriving Repr, DecidableEq

/-- A stored user document (userModel.js schema fields used by the
authentication subsystem). `passwordChangedAt` and `passwordResetExpires` are
millisecond timestamps. -/
structure User where
  id : Nat
  name : String
  email : String
  password : BcryptDigest
  passwordChangedAt : Option Nat
  passwordResetToken : Option String
  passwordResetExpires : Option Nat
  role : Role
  active : Bool
deriving Repr, DecidableEq

/-- `userSchema.methods.isCorrectPassword`. -/
def User.isCorrectPassword (candidatePassword : String) (userPassword : BcryptDigest) : Bool :=
  bcryptCompare candidatePassword userPassword

/-- `userSchema.methods.hasPasswordChangedAfter`: the stored millisecond
timestamp is truncated to whole seconds (`parseInt(getTime() / 1000, 10)`) and
compared strictly against the JWT `iat` (seconds). -/
def User.hasPasswordChangedAfter (u : User) (jwtTimestamp : Nat) : Bool :=
  match u.passwordChangedAt with
  | some changedAt => jwtTimestamp < changedAt / 1000
  | none => false

/-- The `pre(/^find/)` query middleware adds `active: { $ne: false }` to every
find, so every lookup sees only active documents. -/
def activeOnly (db : List User) : List User :=
  db.filter (fun u => u.active)

/-- `User.findOne({ email })` under the active-only query middleware. -/
def findOneByEmail (db : List User) (email : String) : Option User :=
  (activeOnly db).find? (fun u => u.email == email)

/-- `User.findById(id)` under the active-only query middleware. -/
def findById (db : List User) (id : Nat) : Option User :=
  (activeOnly db).find? (fun u => u.id == id)

/-- `User.findOne({ passwordResetToken: hashed, passwordResetExpires: { $gt:
Date.now() } })` under the active-only query middleware. -/
def findByResetToken (db : List User) (hashed : String) (nowMs : Nat) : Option User :=
  (activeOnly db).find? (fun u =>
    u.passwordResetToken == some hashed &&
      match u.passwordResetExpires with
      | some e => nowMs < e
      | none => false)

/-- `save(identity)` against the store: replace the document with the same id. -/
def saveUser (db : List User) (u : User) : List User :=
  db.map (fun v => if v.id = u.id then u else v)

/-- A document about to be saved: its stored fields, the pending plaintext
password when `isModified('password')` holds, and the `isNew` flag. -/
structure SaveInput where
  user : User
  newPassword : Option String
  isNew : Bool

/-- The two `pre('save')` document middlewares: hash a modified password with
cost 12 (clearing `passwordConfirm`), and, when the document is not new, set
`passwordChangedAt` to `Date.now() - 1000`. -/
def runSaveHooks (inp : SaveInput) (nowMs salt : Nat) : User :=
  match inp.newPassword with
  | none => inp.user
  | some plain =>
    let hashed := { inp.user with password := bcryptHash plain 12 salt }
    if inp.isNew then hashed
    else { hashed with passwordChangedAt := some (nowMs - 1000) }

/-- JWT payload relevant to this subsystem: subject id and issue time (s). -/
structure JwtPayload where
  id : Nat
  iat : Nat
deriving Repr, DecidableEq

/-- A signed bearer token: payload fields plus the signature over them. -/
structure Token where
  id : Nat
  iat : Nat
  exp : Nat
  sig : String
deriving Repr, DecidableEq

/-- Model of the HMAC signature of the jsonwebtoken library: a value that is
recomputable exactly from the payload fields and the signing secret. -/
def macSign (id iat exp : Nat) (secret : String) : String :=
  toString id ++ "." ++ toString iat ++ "." ++ toString exp ++ "." ++ secret

/-- `signToken`: `jwt.sign({ id }, secret, { expiresIn })` with
`iat = floor(nowMs / 1000)` and `exp = iat + expiresInSec`. -/
def signToken (id : Nat) (nowMs : Nat) (secret : String) (expiresInSec : Nat) : Token :=
  let iat := nowMs / 1000
  { id := id, iat := iat, exp := iat + expiresInSec,
    sig := macSign id iat (iat + expiresInSec) secret }

/-- The failure kinds thrown by `jwt.verify`. -/
inductive JwtError where
  | invalidSignature
  | expired
deriving Repr, DecidableEq

/-- Model of `jwt.verify(token, secret)`: the signature is checked first, then
expiry (`TokenExpiredError` when the clock reaches `exp`), and on success the
decoded payload is returned. -/
def jwtVerify (t : Token) (secret : String) (nowMs : Nat) : Except JwtError JwtPayload :=
  if t.sig ≠ macSign t.id t.iat t.exp secret then .error .invalidSignature
  else if t.exp ≤ nowMs / 1000 then .error .expired
  else .ok { id := t.id, iat := t.iat }

/-- An incoming request as seen by the auth middlewares: the Authorization
header is its first space-separated word (the scheme) and, when present, the
token after the space; plus the `jwt` cookie. -/
structure Request where
  headerAuth : Option (String × Option Token)
  cookieJwt : Option Token

/-- Token extraction of `protect`: the header is used when it starts with
`Bearer` (even when no token follows the scheme word, in which case the
cookie is NOT consulted); otherwise the `jwt` cookie. -/
def extractToken (req : Request) : Option Token :=
  match req.headerAuth with
  | some (scheme, tok) =>
      if startsWithModel scheme "Bearer" then tok else req.cookieJwt
  | none => req.cookieJwt

/-- The failure kinds of the `protect` middleware. -/
inductive ProtectError where
  | notLoggedIn
  | jwt (e : JwtError)
  | userGone
  | passwordChanged
deriving Repr, DecidableEq

/-- The `protect` middleware: extract a token, verify it, resolve the subject,
check the password-change timestamp, and only then attach the user. -/
def protect (req : Request) (db : List User) (secret : String) (nowMs : Nat) :
    Except ProtectError User :=
  match extractToken req with
  | none => .error .notLoggedIn
  | some token =>
    match jwtVerify token secret nowMs with
    | .error e => .error (.jwt e)
    | .ok payload =>
      match findById db payload.id with
      | none => .error .userGone
      | some user =>
        if user.hasPasswordChangedAfter payload.iat then .error .passwordChanged
        else .ok user

/-- HTTP status code of each `protect` failure.  The `notLoggedIn`, `userGone`
and `passwordChanged` codes are the literal 401s of the source; the mapping of
thrown `jwt.verify` errors is Modelled from the spec: the error controller
that turns them into responses is not part of the analysed sources, and the
spec states they propagate as `NotAuthenticated` (401). -/
def protectErrorStatus : ProtectError → Nat
  | .notLoggedIn => 401
  | .jwt _ => 401
  | .userGone => 401
  | .passwordChanged => 401

/-- The `isLoggedIn` middleware: only the `jwt` cookie is consulted; any
failure (including thrown verification errors) yields no identity. -/
def isLoggedIn (req : Request) (db : List User) (secret : String) (nowMs : Nat) :
    Option User :=
  match req.cookieJwt with
  | none => none
  | some token =>
    match jwtVerify token secret nowMs with
    | .error _ => none
    | .ok payload =>
      match findById db payload.id with
      | none => none
      | some user =>
        if user.hasPasswordChangedAfter payload.iat then none
        else some user

/-- Truthiness of an optional request-body string (`!email`): absent or empty. -/
def isFalsy : Option String → Bool
  | none => true
  | some s => s.isEmpty

/-- The `login` handler: missing fields, then a single generic 401 both when
the email resolves to no (active) user and when the password comparison
fails. -/
def login (db : List User) (email password : Option String) : Except AppError User :=
  if isFalsy email || isFalsy password then
    .error { message := "Please provide an email and password", statusCode := none }
  else
    match findOneByEmail db (email.getD "") with
    | none =>
        .error { message := "Incorrect email or password.", statusCode := some 401 }
    | some user =>
        if User.isCorrectPassword (password.getD "") user.password then .ok user
        else .error { message := "Incorrect email or password.", statusCode := some 401 }

/-- `userSchema.methods.createPasswordResetToken`: the plain secret returned
to the caller together with the updated document. -/
structure ResetTokenResult where
  secret : String
  updated : User

/-- `createPasswordResetToken`: render the 32 random bytes as hex, store the
sha256 digest of that secret and an expiry 10 minutes from now, and return
the plain secret. -/
def createPasswordResetToken (u : User) (randomBytes : List Nat) (nowMs : Nat) :
    ResetTokenResult :=
  let resetToken := bytesToHex randomBytes
  { secret := resetToken,
    updated := { u with
      passwordResetToken := some (sha256Hex resetToken),
      passwordResetExpires := some (nowMs + 10 * 60 * 1000) } }

/-- Schema validation of a pending password/passwordConfirm pair (required,
minlength 8, confirm strictly equal), returning the failing message. -/
def validatePasswordPair (password passwordConfirm : String) : Option String :=
  if password.isEmpty then some "A user must have a password"
  else if password.length < 8 then
    some "Password is shorter than the minimum allowed length (8)."
  else if passwordConfirm.isEmpty then some "A user must have a password confirm"
  else if passwordConfirm ≠ password then some "Passwords are not the same."
  else none

/-- Model of the external `validator.isEmail` collaborator. -/
def emailFormatOk (s : String) : Bool :=
  s.data.any (fun c => c == '@')

/-- The body of a signup request. -/
structure SignupRequest where
  name : String
  email : String
  password : String
  passwordConfirm : String

/-- Schema validation run by `User.create`: required name, required
well-formed unique email (compared after lower-casing), password rules. -/
def validateNewUser (db : List User) (req : SignupRequest) : Option String :=
  if req.name.isEmpty then some "A user must have a name."
  else if req.email.isEmpty then some "A user must have a email"
  else if ¬ emailFormatOk req.email then some "Email address is not valid"
  else if db.any (fun u => u.email == lowercaseModel req.email) then
    some "E11000 duplicate key error"
  else validatePasswordPair req.password req.passwordConfirm

/-- The document persisted by `User.create` on signup: email lower-cased by
the schema, password hashed by the save hook with cost 12, and
`passwordChangedAt` untouched because the document is new. -/
def signupUser (req : SignupRequest) (newId salt : Nat) : User :=
  { id := newId, name := req.name, email := lowercaseModel req.email,
    password := bcryptHash req.password 12 salt,
    passwordChangedAt := none, passwordResetToken := none,
    passwordResetExpires := none, role := .user, active := true }

/-- The `signup` handler: create the user (password hashed by the save hook,
`passwordChangedAt` untouched because the document is new), then await the
welcome email, and only afterwards mint and send the token.  The outcome of
the awaited send is the `emailOk` oracle; a rejected send propagates
`emailErr` through `catchAsync`. -/
def signup (db : List User) (req : SignupRequest) (newId salt nowMs : Nat)
    (emailOk : Bool) (emailErr : AppError) (jwtSecret : String) (expiresInSec : Nat) :
    List User × Except AppError (Token × User) :=
  match validateNewUser db req with
  | some msg => (db, .error { message := msg, statusCode := none })
  | none =>
    let newUser := signupUser req newId salt
    let db1 := db ++ [newUser]
    if emailOk then
      (db1, .ok (signToken newUser.id nowMs jwtSecret expiresInSec, newUser))
    else (db1, .error emailErr)

/-- The `forgotPassword` handler: look up by email (404 when absent), store
the generated reset hash and expiry, then attempt the send; on a rejected
send clear both fields again and fail with a 500. -/
def forgotPassword (db : List User) (email : String) (randomBytes : List Nat)
    (nowMs : Nat) (emailOk : Bool) : List User × Except AppError Unit :=
  match findOneByEmail db email with
  | none =>
      (db, .error { message := "There is no user with the provided email address.",
                    statusCode := some 404 })
  | some user =>
    let r := createPasswordResetToken user randomBytes nowMs
    let db1 := saveUser db r.updated
    if emailOk then (db1, .ok ())
    else
      let cleared :=
        { r.updated with passwordResetToken := none, passwordResetExpires := none }
      (saveUser db1 cleared,
        .error { message := "There was an error sending the email. Try again later.",
                 statusCode := some 500 })

/-- The `resetPassword` handler: hash the candidate secret, look up an active
user holding that hash with an unexpired window (400 otherwise), then set the
new password, clear the reset fields, save (hashing it and stamping
`passwordChangedAt = now - 1000`), and mint a fresh token. -/
def resetPassword (db : List User) (candidateSecret password passwordConfirm : String)
    (nowMs salt : Nat) (jwtSecret : String) (expiresInSec : Nat) :
    List User × Except AppError (Token × User) :=
  let hashedToken := sha256Hex candidateSecret
  match findByResetToken db hashedToken nowMs with
  | none =>
      (db, .error { message := "Token is invalid or has expired.", statusCode := some 400 })
  | some user =>
    match validatePasswordPair password passwordConfirm with
    | some msg => (db, .error { message := msg, statusCode := none })
    | none =>
      let cleared :=
        { user with passwordResetToken := none, passwordResetExpires := none }
      let saved := runSaveHooks { user := cleared, newPassword := some password,
                                  isNew := false } nowMs salt
      (saveUser db saved, .ok (signToken user.id nowMs jwtSecret expiresInSec, saved))

/-- The failure kinds named by the spec for the Auth Gate (§4.2/§4.4). -/
inductive SpecAuthFailure where
  | notAuthenticated
  | invalidSignature
  | expired
  | identityNotFound
  | passwordChangedSinceIssued
deriving Repr, DecidableEq

/-- The spec's Auth Gate (§4.4 steps 1-3 refined by §4.2 a-e), written from
the spec's words: extract from the bearer-style header or the cookie, fail
`notAuthenticated` when neither yields a token; check signature, then expiry,
then resolve the subject, failing `identityNotFound` when it no longer
exists; fail `passwordChangedSinceIssued` when the identity's password-change
check flags the token's issue time; only then attach the identity. -/
def specGate (req : Request) (db : List User) (secret : String) (nowMs : Nat) :
    Except SpecAuthFailure User :=
  match extractToken req with
  | none => .error .notAuthenticated
  | some token =>
    match jwtVerify token secret nowMs with
    | .error .invalidSignature => .error .invalidSignature
    | .error .expired => .error .expired
    | .ok payload =>
      match findById db payload.id with
      | none => .error .identityNotFound
      | some user =>
        if user.hasPasswordChangedAfter payload.iat then
          .error .passwordChangedSinceIssued
        else .ok user

/-- Renaming of `protect`'s failure kinds into the spec's vocabulary. -/
def protectErrorToSpec : ProtectError → SpecAuthFailure
  | .notLoggedIn => .notAuthenticated
  | .jwt .invalidSignature => .invalidSignature
  | .jwt .expired => .expired
  | .userGone => .identityNotFound
  | .passwordChanged => .passwordChangedSinceIssued

/-- Decidable equality of `Except` results, for evaluating concrete runs. -/
instance {ε α : Type} [DecidableEq ε] [DecidableEq α] : DecidableEq (Except ε α) := fun x y =>
  match x, y with
  | .ok a, .ok b =>
    if h : a = b then isTrue (by rw [h]) else isFalse (by intro hh; cases hh; exact h rfl)
  | .error a, .error b =>
    if h : a = b then isTrue (by rw [h]) else isFalse (by intro hh; cases hh; exact h rfl)
  | .ok _, .error _ => isFalse (by intro hh; cases hh)
  | .error _, .ok _ => isFalse (by intro hh; cases hh)

/-! ### Concrete fixtures used by witnesses and counterexamples -/

/-- A concrete active user whose stored digest commits to `longpass1`. -/
def cUserA : User :=
  { id := 1, name := "Ana", email := "a@x.com",
    password := bcryptHash "longpass1" 12 0,
    passwordChangedAt := none, passwordResetToken := none,
    passwordResetExpires := none, role := .user, active := true }

/-- A token for `cUserA` minted at 5000 ms with secret `topsecret`. -/
def cTokenA : Token := signToken 1 5000 "topsecret" 3600

/-- A concrete valid signup request. -/
def cReq : SignupRequest :=
  { name := "Ana", email := "a@x.com", password := "longpass1",
    passwordConfirm := "longpass1" }

/-- The concrete rejection of a failing welcome send. -/
def cEmailErr : AppError := { message := "send failed", statusCode := none }

/-- `cUserA` with the password-changed timestamp set to 1 ms. -/
def cUserChanged1ms : User := { cUserA with passwordChangedAt := some 1 }

/-- `cUserA` with the password-changed timestamp set to 2000 ms. -/
def cUserChanged2s : User := { cUserA with passwordChangedAt := some 2000 }

/-- A token for user 1 minted at 0 ms with secret `topsecret`. -/
def cToken0 : Token := signToken 1 0 "topsecret" 3600

/-- A deactivated copy of `cUserA`. -/
def cInactive : User := { cUserA with active := false }

/-- A concrete reset secret: the hex rendering of 32 concrete bytes. -/
def cSecret : String := bytesToHex (List.range 32)

/-- A concrete user holding the reset hash of `cSecret` with an expiry at
600000 ms. -/
def cUserR : User :=
  { id := 7, name := "Rey", email := "r@x.com",
    password := bcryptHash "oldpassword" 12 0,
    passwordChangedAt := none,
    passwordResetToken := some (sha256Hex cSecret),
    passwordResetExpires := some 600000, role := .user, active := true }

/-- The document `cUserR` becomes after a successful reset at 1000 ms. -/
def cSaved : User :=
  runSaveHooks
    { user := { cUserR with
        passwordResetToken := none
        passwordResetExpires := none }
      newPassword := some "newpass123"
      isNew := false } 1000 5

/-! ### Helper lemmas -/

lemma sha256Hex_injective {a b : String} (h : sha256Hex a = sha256Hex b) : a = b := by
  have hd : ("sha256$" ++ a).data = ("sha256$" ++ b).data := by
    unfold sha256Hex at h
    rw [h]
  rw [String.data_append, String.data_append] at hd
  exact String.ext (List.append_cancel_left hd)

lemma sha256Hex_ne_self (s : String) : sha256Hex s ≠ s := by
  intro h
  have : (sha256Hex s).length = s.length := by rw [h]
  rw [sha256Hex, String.length_append] at this
  have h7 : ("sha256$" : String).length = 7 := rfl
  rw [h7] at this
  omega

lemma mem_activeOnly {db : List User} {u : User} :
    u ∈ activeOnly db ↔ u ∈ db ∧ u.active = true := by
  unfold activeOnly
  rw [List.mem_filter]

lemma find?_of_unique {α : Type} (p : α → Bool) (l : List α) (a : α)
    (ha : a ∈ l) (hpa : p a = true) (huniq : ∀ b ∈ l, p b = true → b = a) :
    l.find? p = some a := by
  induction l with
  | nil => cases ha
  | cons x xs ih =>
    by_cases hx : p x = true
    · rw [List.find?_cons_of_pos _ hx, huniq x (List.mem_cons_self x xs) hx]
    · have hx' : p x = false := by simpa using hx
      rw [List.find?_cons_of_neg _ (by simp [hx'])]
      have hxs : a ∈ xs := by
        rcases List.mem_cons.mp ha with h | h
        · exact absurd (by rwa [h] at hpa) hx
        · exact h
      exact ih hxs fun b hb hpb => huniq b (List.mem_cons_of_mem _ hb) hpb

lemma find?_eq_none_of {α : Type} (p : α → Bool) (l : List α)
    (h : ∀ b ∈ l, p b = false) : l.find? p = none := by
  rw [List.find?_eq_none]
  intro x hx
  simp [h x hx]

lemma saveUser_twice (db : List User) (a b : User) (h : a.id = b.id) :
    saveUser (saveUser db a) b = saveUser db b := by
  unfold saveUser
  rw [List.map_map]
  apply List.map_congr_left
  intro v _
  by_cases hv : v.id = a.id
  · simp [Function.comp, hv, h]
  · simp [Function.comp, hv]

lemma mem_saveUser {db : List User} {c v : User} (hv : v ∈ saveUser db c) :
    v = c ∨ (v ∈ db ∧ v.id ≠ c.id) := by
  rcases List.mem_map.mp hv with ⟨w, hw, hweq⟩
  by_cases hwid : w.id = c.id
  · left
    rw [← hweq, if_pos hwid]
  · right
    rw [← hweq, if_neg hwid]
    exact ⟨hw, hwid⟩

lemma mem_saveUser_eq {db : List User} {c : User} :
    ∀ v ∈ saveUser db c, v.id = c.id → v = c := by
  intro v hv hid
  rcases mem_saveUser hv with h | h
  · exact h
  · exact absurd hid h.2

lemma byteToHex_length (b : Nat) : (byteToHex b).length = 2 := rfl

lemma bytesToHex_length (bs : List Nat) : (bytesToHex bs).length = 2 * bs.length := by
  induction bs with
  | nil => rfl
  | cons b t ih =>
    rw [bytesToHex, String.length_append, byteToHex_length, ih, List.length_cons]
    ring

/-- A lower-case hex character: a digit or one of `a`-`f`. -/
def isHexLower (c : Char) : Bool :=
  c.isDigit || ('a' ≤ c && c ≤ 'f')

lemma hexDigit_isHexLower {n : Nat} (h : n < 16) : isHexLower (hexDigit n) = true := by
  revert h
  revert n
  decide

lemma byteToHex_isHexLower (b : Nat) :
    ∀ c ∈ (byteToHex b).data, isHexLower c = true := by
  intro c hc
  have hc' : c = hexDigit (b / 16 % 16) ∨ c = hexDigit (b % 16) := by
    simpa [byteToHex, List.mem_cons] using hc
  rcases hc' with h | h <;> rw [h] <;>
    exact hexDigit_isHexLower (Nat.mod_lt _ (by omega))

lemma bytesToHex_isHexLower (bs : List Nat) :
    ∀ c ∈ (bytesToHex bs).data, isHexLower c = true := by
  induction bs with
  | nil => intro c hc; cases hc
  | cons b t ih =>
    intro c hc
    rw [bytesToHex, String.data_append] at hc
    rcases List.mem_append.mp hc with h | h
    · exact byteToHex_isHexLower b c h
    · exact ih c h

/-! ### C1 -/

/-- C1: `protect` first extracts a candidate token from a bearer-style
Authorization header, falling back to the `jwt` cookie, and refines the
spec's Auth Gate stage for stage: missing token, then invalid signature,
then expiry, then missing identity, then password-changed-after-issue each
fail in that order, every failure carries status 401, and only when all
checks pass is the resolved identity returned. -/
theorem C1_protect_gate_order (req : Request) (db : List User) (secret : String)
    (nowMs : Nat) :
    (protect req db secret nowMs).mapError protectErrorToSpec = specGate req db secret nowMs ∧
    (∀ s t, req.headerAuth = some (s, t) → startsWithModel s "Bearer" = true →
      extractToken req = t) ∧
    (req.headerAuth = none → extractToken req = req.cookieJwt) ∧
    (∀ e, protect req db secret nowMs = .error e → protectErrorStatus e = 401) := by
  refine ⟨?_, ?_, ?_, ?_⟩
  · unfold protect specGate
    cases hext : extractToken req with
    | none => rfl
    | some token =>
      dsimp only
      cases hv : jwtVerify token secret nowMs with
      | error e => cases e <;> rfl
      | ok payload =>
        dsimp only
        cases hf : findById db payload.id with
        | none => rfl
        | some user =>
          dsimp only
          by_cases hc : user.hasPasswordChangedAfter payload.iat = true
          · rw [if_pos hc, if_pos hc]
            rfl
          · rw [if_neg hc, if_neg hc]
            rfl
  · intro s t hs hb
    unfold extractToken
    rw [hs]
    dsimp only
    simp [hb]
  · intro h
    unfold extractToken
    rw [h]
  · intro e _
    cases e <;> rfl

/-- C1 witness: at a concrete request with no token at all, `protect` fails
and the failure's status is 401. -/
theorem C1_witness :
    protect { headerAuth := none, cookieJwt := none } [] "s" 0 = .error .notLoggedIn ∧
    protectErrorStatus .notLoggedIn = 401 :=
  ⟨rfl, (C1_protect_gate_order { headerAuth := none, cookieJwt := none } [] "s" 0).2.2.2
    .notLoggedIn rfl⟩

/-! ### C8 -/

/-- C8 counterexample: `isLoggedIn` does NOT perform the same token
extraction as `protect`: on a request carrying a valid bearer Authorization
header and no cookie, `protect` attaches the identity while `isLoggedIn`
yields none. -/
theorem C8_counterexample :
    protect { headerAuth := some ("Bearer", some cTokenA), cookieJwt := none }
      [cUserA] "topsecret" 5000 = .ok cUserA ∧
    isLoggedIn { headerAuth := some ("Bearer", some cTokenA), cookieJwt := none }
      [cUserA] "topsecret" 5000 = none :=
  ⟨by decide, by decide⟩

/-- C8 amended: `isLoggedIn` consults only the `jwt` cookie (never the
Authorization header); when a cookie token is present it performs exactly the
resolution of `protect` on that token, and on any failure it yields no
identity — by its `Option` result type it never returns an error. -/
theorem C8_amended_cookie_only (req : Request) (db : List User) (secret : String)
    (nowMs : Nat) :
    (req.cookieJwt = none → isLoggedIn req db secret nowMs = none) ∧
    (∀ t, req.cookieJwt = some t →
      isLoggedIn req db secret nowMs =
        (protect { headerAuth := none, cookieJwt := some t } db secret nowMs).toOption) := by
  constructor
  · intro h
    unfold isLoggedIn
    rw [h]
  · intro t ht
    unfold isLoggedIn protect extractToken
    rw [ht]
    dsimp only
    cases hv : jwtVerify t secret nowMs with
    | error e => rfl
    | ok payload =>
      dsimp only
      cases hf : findById db payload.id with
      | none => rfl
      | some user =>
        dsimp only
        by_cases hc : user.hasPasswordChangedAfter payload.iat = true
        · rw [if_pos hc, if_pos hc]
          rfl
        · rw [if_neg hc, if_neg hc]
          rfl

/-- C8 witness: with no cookie (even with a valid bearer header), the
non-enforcing variant yields no identity. -/
theorem C8_witness :
    isLoggedIn { headerAuth := some ("Bearer", some cTokenA), cookieJwt := none }
      [cUserA] "topsecret" 5000 = none :=
  (C8_amended_cookie_only { headerAuth := some ("Bearer", some cTokenA), cookieJwt := none }
    [cUserA] "topsecret" 5000).1 rfl

/-! ### C6 -/

/-- C6: a login with a registered email and a wrong password and a login with
an unregistered email produce identical results: the same generic
`Incorrect email or password.` error with status 401. -/
theorem C6_login_uniform_error (db : List User) (e1 p1 e2 p2 : String) (u : User)
    (h1 : findOneByEmail db e1 = some u)
    (h2 : User.isCorrectPassword p1 u.password = false)
    (h3 : findOneByEmail db e2 = none)
    (he1 : e1.isEmpty = false) (hp1 : p1.isEmpty = false)
    (he2 : e2.isEmpty = false) (hp2 : p2.isEmpty = false) :
    login db (some e1) (some p1) = login db (some e2) (some p2) ∧
    login db (some e1) (some p1) =
      .error { message := "Incorrect email or password.", statusCode := some 401 } := by
  have hf1 : isFalsy (some e1) = false := he1
  have hf2 : isFalsy (some p1) = false := hp1
  have hf3 : isFalsy (some e2) = false := he2
  have hf4 : isFalsy (some p2) = false := hp2
  have hl1 : login db (some e1) (some p1) =
      .error { message := "Incorrect email or password.", statusCode := some 401 } := by
    unfold login
    rw [hf1, hf2]
    simp only [Bool.or_self, Bool.false_eq_true, if_false, Option.getD_some, h1, h2]
  have hl2 : login db (some e2) (some p2) =
      .error { message := "Incorrect email or password.", statusCode := some 401 } := by
    unfold login
    rw [hf3, hf4]
    simp only [Bool.or_self, Bool.false_eq_true, if_false, Option.getD_some, h3]
  exact ⟨hl1.trans hl2.symm, hl1⟩

/-- C6 witness: concrete wrong-password and unknown-email logins coincide. -/
theorem C6_witness :
    login [cUserA] (some "a@x.com") (some "badpassword") =
      login [cUserA] (some "b@x.com") (some "whatever1") :=
  (C6_login_uniform_error [cUserA] "a@x.com" "badpassword" "b@x.com" "whatever1" cUserA
    rfl rfl rfl rfl rfl rfl rfl).1

/-! ### C2 -/

/-- C2 counterexample: on a valid signup whose welcome send fails, the
identity IS persisted (with hashed password) but the handler propagates the
send error and NO token is delivered — the failure does abort the rest of
signup, contrary to the claim. -/
theorem C2_counterexample :
    validateNewUser [] cReq = none ∧
    (signup [] cReq 1 0 5000 false cEmailErr "topsecret" 3600).1 = [signupUser cReq 1 0] ∧
    (signup [] cReq 1 0 5000 false cEmailErr "topsecret" 3600).2 = .error cEmailErr :=
  ⟨by decide, by decide, by decide⟩

/-- C2 amended: for every signup request passing schema validation, the
identity is persisted with a hashed password whatever the welcome-send
outcome; but the token is minted and delivered only when the send succeeds —
a send failure propagates its error and aborts the response. -/
theorem C2_amended_signup (db : List User) (req : SignupRequest)
    (newId salt nowMs : Nat) (emailErr : AppError) (jwtSecret : String) (life : Nat)
    (hvalid : validateNewUser db req = none) :
    (∀ ok, (signup db req newId salt nowMs ok emailErr jwtSecret life).1
        = db ++ [signupUser req newId salt]) ∧
    (signup db req newId salt nowMs false emailErr jwtSecret life).2 = .error emailErr ∧
    (signup db req newId salt nowMs true emailErr jwtSecret life).2 =
      .ok (signToken newId nowMs jwtSecret life, signupUser req newId salt) := by
  unfold signup
  rw [hvalid]
  dsimp only
  exact ⟨fun ok => by cases ok <;> rfl, rfl, rfl⟩

/-- C2 witness: a concrete valid signup with a succeeding send returns the
token, and the amended theorem applies. -/
theorem C2_witness :
    (signup [] cReq 1 0 5000 true cEmailErr "topsecret" 3600).2 =
      .ok (signToken 1 5000 "topsecret" 3600, signupUser cReq 1 0) :=
  (C2_amended_signup [] cReq 1 0 5000 cEmailErr "topsecret" 3600 (by decide)).2.2

/-! ### C3 -/

/-- C3 counterexample: a token minted at T = 0 ms; the identity's
password-changed timestamp is then set to 1 ms — strictly after T — yet
verification still succeeds, because both instants truncate to the same
whole second (`parseInt(getTime() / 1000)` vs the token's whole-second
`iat`). -/
theorem C3_counterexample :
    cUserChanged1ms.passwordChangedAt = some 1 ∧ cToken0.iat = 0 ∧
    protect { headerAuth := none, cookieJwt := some cToken0 }
      [cUserChanged1ms] "topsecret" 1 = .ok cUserChanged1ms :=
  ⟨rfl, rfl, by decide⟩

/-- C3 amended: verification fails with the password-changed kind exactly
when the changed timestamp truncated to whole seconds strictly exceeds the
token's issued-at second; in particular a change one full second after mint
revokes the token. -/
theorem C3_amended_granularity (db : List User) (u : User) (secret : String)
    (mintMs changedMs nowMs life : Nat)
    (hfind : findById db u.id = some u)
    (hch : u.passwordChangedAt = some changedMs)
    (hexp : nowMs / 1000 < mintMs / 1000 + life)
    (hgt : mintMs / 1000 < changedMs / 1000) :
    u.hasPasswordChangedAfter (signToken u.id mintMs secret life).iat = true ∧
    protect { headerAuth := none, cookieJwt := some (signToken u.id mintMs secret life) }
      db secret nowMs = .error .passwordChanged := by
  have hch2 : u.hasPasswordChangedAfter (mintMs / 1000) = true := by
    unfold User.hasPasswordChangedAfter
    rw [hch]
    exact decide_eq_true hgt
  have hv : jwtVerify (signToken u.id mintMs secret life) secret nowMs =
      .ok { id := u.id, iat := mintMs / 1000 } := by
    show jwtVerify
        { id := u.id, iat := mintMs / 1000, exp := mintMs / 1000 + life,
          sig := macSign u.id (mintMs / 1000) (mintMs / 1000 + life) secret }
        secret nowMs = .ok { id := u.id, iat := mintMs / 1000 }
    unfold jwtVerify
    dsimp only
    rw [if_neg (fun h => h rfl), if_neg (by omega)]
  constructor
  · exact hch2
  · unfold protect
    have hext : extractToken
        { headerAuth := none, cookieJwt := some (signToken u.id mintMs secret life) } =
        some (signToken u.id mintMs secret life) := rfl
    rw [hext]
    dsimp only
    rw [hv]
    dsimp only
    rw [hfind]
    dsimp only
    rw [if_pos hch2]

/-- C3 witness: change at 2000 ms, mint at 0 ms — the token is revoked. -/
theorem C3_witness :
    protect { headerAuth := none, cookieJwt := some (signToken 1 0 "topsecret" 3600) }
      [cUserChanged2s] "topsecret" 500 = .error .passwordChanged :=
  (C3_amended_granularity [cUserChanged2s] cUserChanged2s "topsecret" 0 2000 500 3600
    (by decide) (by decide) (by decide) (by decide)).2

/-! ### C9 -/

/-- C9: saving an existing document with a modified password stamps
`passwordChangedAt = now - 1000`, one second before the save, so any token
whose issued-at second is at or after the save's second still passes the
revocation check. -/
theorem C9_password_changed_stamp (u : User) (pw : String) (nowMs salt iat : Nat)
    (hiat : nowMs / 1000 ≤ iat) :
    (runSaveHooks { user := u, newPassword := some pw, isNew := false }
        nowMs salt).passwordChangedAt = some (nowMs - 1000) ∧
    (runSaveHooks { user := u, newPassword := some pw, isNew := false }
        nowMs salt).hasPasswordChangedAfter iat = false := by
  have hpc : (runSaveHooks { user := u, newPassword := some pw, isNew := false }
      nowMs salt).passwordChangedAt = some (nowMs - 1000) := rfl
  refine ⟨hpc, ?_⟩
  unfold User.hasPasswordChangedAfter
  rw [hpc]
  dsimp only
  simp only [decide_eq_false_iff_not, not_lt]
  omega

/-- C9 witness: save at 10000 ms, token issued in second 10, check passes. -/
theorem C9_witness :
    (runSaveHooks { user := cUserA, newPassword := some "newpass123", isNew := false }
        10000 3).hasPasswordChangedAfter 10 = false :=
  (C9_password_changed_stamp cUserA "newpass123" 10000 3 10 (by decide)).2

/-! ### C7 -/

/-- C7: the reset-token generator renders the 32 random bytes as a
64-character lower-case hex secret; the stored value is the deterministic
sha256 digest recomputable from the secret alone; the stored expiry is
exactly now + 10 minutes; and only those two fields change — the secret
itself is never among the persisted fields. -/
theorem C7_reset_token_generator (u : User) (bytes : List Nat) (nowMs : Nat)
    (hlen : bytes.length = 32) :
    (createPasswordResetToken u bytes nowMs).secret = bytesToHex bytes ∧
    ((createPasswordResetToken u bytes nowMs).secret).length = 64 ∧
    (∀ c ∈ ((createPasswordResetToken u bytes nowMs).secret).data, isHexLower c = true) ∧
    (createPasswordResetToken u bytes nowMs).updated.passwordResetToken =
      some (sha256Hex ((createPasswordResetToken u bytes nowMs).secret)) ∧
    (createPasswordResetToken u bytes nowMs).updated.passwordResetExpires =
      some (nowMs + 10 * 60 * 1000) ∧
    (createPasswordResetToken u bytes nowMs).updated.passwordResetToken ≠
      some ((createPasswordResetToken u bytes nowMs).secret) ∧
    (createPasswordResetToken u bytes nowMs).updated.id = u.id ∧
    (createPasswordResetToken u bytes nowMs).updated.name = u.name ∧
    (createPasswordResetToken u bytes nowMs).updated.email = u.email ∧
    (createPasswordResetToken u bytes nowMs).updated.password = u.password ∧
    (createPasswordResetToken u bytes nowMs).updated.passwordChangedAt =
      u.passwordChangedAt ∧
    (createPasswordResetToken u bytes nowMs).updated.role = u.role ∧
    (createPasswordResetToken u bytes nowMs).updated.active = u.active := by
  refine ⟨rfl, ?_, ?_, rfl, rfl, ?_, rfl, rfl, rfl, rfl, rfl, rfl, rfl⟩
  · show (bytesToHex bytes).length = 64
    rw [bytesToHex_length, hlen]
  · intro c hc
    exact bytesToHex_isHexLower bytes c hc
  · show some (sha256Hex (bytesToHex bytes)) ≠ some (bytesToHex bytes)
    simp only [ne_eq, Option.some.injEq]
    exact sha256Hex_ne_self (bytesToHex bytes)

/-- C7 witness: 32 concrete bytes yield a 64-character hex secret. -/
theorem C7_witness :
    (List.range 32).length = 32 ∧
    ((createPasswordResetToken cUserA (List.range 32) 0).secret).length = 64 :=
  ⟨by decide, (C7_reset_token_generator cUserA (List.range 32) 0 (by decide)).2.1⟩

/-! ### C5 -/

/-- C5: forgot-password on an unknown email fails 404 with no write at all;
on a known identity with a failing send, the stored reset hash and expiry
are cleared again in the state the flow leaves behind, which fails 500 — no
valid reset token survives an unnotified user. -/
theorem C5_forgot_clears_on_send_failure (db : List User) (email : String)
    (bytes : List Nat) (nowMs : Nat) :
    (findOneByEmail db email = none →
      ∀ ok, forgotPassword db email bytes nowMs ok =
        (db, .error { message := "There is no user with the provided email address.",
                      statusCode := some 404 })) ∧
    (∀ u, findOneByEmail db email = some u →
      forgotPassword db email bytes nowMs false =
        (saveUser db { u with passwordResetToken := none, passwordResetExpires := none },
         .error { message := "There was an error sending the email. Try again later.",
                  statusCode := some 500 }) ∧
      ∀ v ∈ saveUser db { u with passwordResetToken := none, passwordResetExpires := none },
        v.id = u.id → v.passwordResetToken = none ∧ v.passwordResetExpires = none) := by
  constructor
  · intro hnone ok
    unfold forgotPassword
    rw [hnone]
  · intro u hu
    constructor
    · unfold forgotPassword
      rw [hu]
      dsimp only
      simp only [Bool.false_eq_true, if_false]
      have key := saveUser_twice db (createPasswordResetToken u bytes nowMs).updated
        { u with passwordResetToken := none, passwordResetExpires := none } rfl
      exact congrArg
        (fun l => (l, (Except.error
          { message := "There was an error sending the email. Try again later.",
            statusCode := some 500 } : Except AppError Unit))) key
    · intro v hv hvid
      have := mem_saveUser_eq v hv hvid
      rw [this]
      exact ⟨rfl, rfl⟩

/-- C5 witness: with an empty store, forgot-password is a pure 404. -/
theorem C5_witness :
    forgotPassword [] "a@x.com" [] 0 true =
      ([], .error { message := "There is no user with the provided email address.",
                    statusCode := some 404 }) :=
  (C5_forgot_clears_on_send_failure [] "a@x.com" [] 0).1 rfl true

/-! ### C10 -/

/-- C10: every lookup of the subsystem runs behind the active-only query
middleware, so it only ever returns active identities; consequently a
deactivated identity yields the generic invalid-credentials error at login
(even with the correct password) and `protect` fails as if the identity no
longer existed for any token naming it. -/
theorem C10_inactive_excluded (db : List User) (u : User) (pw : String)
    (secret : String) (mintMs nowMs life : Nat)
    (_hmem : u ∈ db) (hinact : u.active = false) :
    (∀ e x, findOneByEmail db e = some x → x.active = true) ∧
    (∀ i x, findById db i = some x → x.active = true) ∧
    (∀ h n x, findByResetToken db h n = some x → x.active = true) ∧
    ((∀ v ∈ db, v.email = u.email → v = u) → u.email.isEmpty = false →
      pw.isEmpty = false →
      login db (some u.email) (some pw) =
        .error { message := "Incorrect email or password.", statusCode := some 401 }) ∧
    ((∀ v ∈ db, v.id = u.id → v = u) → nowMs / 1000 < mintMs / 1000 + life →
      protect { headerAuth := none, cookieJwt := some (signToken u.id mintMs secret life) }
        db secret nowMs = .error .userGone) := by
  refine ⟨?_, ?_, ?_, ?_, ?_⟩
  · intro e x hx
    exact (mem_activeOnly.mp (List.mem_of_find?_eq_some hx)).2
  · intro i x hx
    exact (mem_activeOnly.mp (List.mem_of_find?_eq_some hx)).2
  · intro h n x hx
    exact (mem_activeOnly.mp (List.mem_of_find?_eq_some hx)).2
  · intro huniq hemail hpw
    have hnone : findOneByEmail db u.email = none := by
      apply find?_eq_none_of
      intro b hb
      rcases mem_activeOnly.mp hb with ⟨hbdb, hbact⟩
      by_cases he : b.email = u.email
      · rw [huniq b hbdb he, hinact] at hbact
        exact absurd hbact (by simp)
      · simp [he]
    have hf1 : isFalsy (some u.email) = false := hemail
    have hf2 : isFalsy (some pw) = false := hpw
    unfold login
    rw [hf1, hf2]
    simp only [Bool.or_self, Bool.false_eq_true, if_false, Option.getD_some, hnone]
  · intro huniq hexp
    have hnone : findById db u.id = none := by
      apply find?_eq_none_of
      intro b hb
      rcases mem_activeOnly.mp hb with ⟨hbdb, hbact⟩
      by_cases hi : b.id = u.id
      · rw [huniq b hbdb hi, hinact] at hbact
        exact absurd hbact (by simp)
      · simp [hi]
    have hv : jwtVerify (signToken u.id mintMs secret life) secret nowMs =
        .ok { id := u.id, iat := mintMs / 1000 } := by
      show jwtVerify
          { id := u.id, iat := mintMs / 1000, exp := mintMs / 1000 + life,
            sig := macSign u.id (mintMs / 1000) (mintMs / 1000 + life) secret }
          secret nowMs = .ok { id := u.id, iat := mintMs / 1000 }
      unfold jwtVerify
      dsimp only
      rw [if_neg (fun h => h rfl), if_neg (by omega)]
    unfold protect
    have hext : extractToken
        { headerAuth := none, cookieJwt := some (signToken u.id mintMs secret life) } =
        some (signToken u.id mintMs secret life) := rfl
    rw [hext]
    dsimp only
    rw [hv]
    dsimp only
    rw [hnone]

/-- C10 witness: a deactivated user cannot log in even with the correct
password — the failure is the generic credentials error. -/
theorem C10_witness :
    login [cInactive] (some "a@x.com") (some "longpass1") =
      .error { message := "Incorrect email or password.", statusCode := some 401 } :=
  (C10_inactive_excluded [cInactive] cInactive "longpass1" "s" 0 0 1
    (by decide) (by decide)).2.2.2.1 (by decide) (by decide) (by decide)

/-! ### C4 -/

/-- C4: when an identity uniquely holds the stored hash of a reset secret
(ids unique, no other identity holds any reset token) and the window has not
passed, consuming the correct secret succeeds, clearing the stored hash and
expiry in the same write; a second consume of the same secret against the
resulting store fails with the `Token is invalid or has expired.` (400)
error, as does any consume with a wrong secret or one attempted at or after
the expiry. -/
theorem C4_reset_single_use (db : List User) (u : User) (secret pw : String)
    (expMs nowMs salt : Nat) (jwtSecret : String) (life : Nat) (saved : User)
    (hmem : u ∈ db) (hact : u.active = true)
    (htok : u.passwordResetToken = some (sha256Hex secret))
    (hexp : u.passwordResetExpires = some expMs)
    (hnow : nowMs < expMs)
    (hid : ∀ v ∈ db, v.id = u.id → v = u)
    (honly : ∀ v ∈ db, v.id ≠ u.id → v.passwordResetToken = none)
    (hpw : validatePasswordPair pw pw = none)
    (hsaved : saved = runSaveHooks
      { user := { u with
          passwordResetToken := none
          passwordResetExpires := none }
        newPassword := some pw
        isNew := false } nowMs salt) :
    resetPassword db secret pw pw nowMs salt jwtSecret life =
      (saveUser db saved, .ok (signToken u.id nowMs jwtSecret life, saved)) ∧
    saved.passwordResetToken = none ∧
    saved.passwordResetExpires = none ∧
    (∀ pwB nowB saltB,
      resetPassword (saveUser db saved) secret pwB pwB nowB saltB jwtSecret life =
        (saveUser db saved,
         .error { message := "Token is invalid or has expired.", statusCode := some 400 })) ∧
    (∀ w, w ≠ secret → ∀ pwB saltB,
      resetPassword db w pwB pwB nowMs saltB jwtSecret life =
        (db, .error { message := "Token is invalid or has expired.", statusCode := some 400 })) ∧
    (∀ nowB, expMs ≤ nowB → ∀ pwB saltB,
      resetPassword db secret pwB pwB nowB saltB jwtSecret life =
        (db, .error { message := "Token is invalid or has expired.", statusCode := some 400 })) := by
  subst hsaved
  have hfind : findByResetToken db (sha256Hex secret) nowMs = some u := by
    unfold findByResetToken
    apply find?_of_unique
    · exact mem_activeOnly.mpr ⟨hmem, hact⟩
    · rw [htok, hexp]
      simp [hnow]
    · intro b hb hpb
      rcases mem_activeOnly.mp hb with ⟨hbdb, hbact⟩
      by_cases hbid : b.id = u.id
      · exact hid b hbdb hbid
      · exfalso
        rw [honly b hbdb hbid] at hpb
        simp at hpb
  refine ⟨?_, rfl, rfl, ?_, ?_, ?_⟩
  · unfold resetPassword
    dsimp only
    rw [hfind]
    dsimp only
    rw [hpw]
  · intro pwB nowB saltB
    have hnone : findByResetToken (saveUser db
        (runSaveHooks
          { user := { u with
              passwordResetToken := none
              passwordResetExpires := none }
            newPassword := some pw
            isNew := false } nowMs salt)) (sha256Hex secret) nowB = none := by
      apply find?_eq_none_of
      intro b hb
      rcases mem_activeOnly.mp hb with ⟨hbdb, hbact⟩
      rcases mem_saveUser hbdb with h | ⟨hbdb', hbid⟩
      · have hsn : (runSaveHooks
            { user := { u with
                passwordResetToken := none
                passwordResetExpires := none }
              newPassword := some pw
              isNew := false } nowMs salt).passwordResetToken = none := rfl
        rw [h]
        simp [hsn]
      · rw [honly b hbdb' hbid]
        simp
    unfold resetPassword
    dsimp only
    rw [hnone]
  · intro w hw pwB saltB
    have hne : sha256Hex secret ≠ sha256Hex w :=
      fun h => hw (sha256Hex_injective h).symm
    have hnone : findByResetToken db (sha256Hex w) nowMs = none := by
      apply find?_eq_none_of
      intro b hb
      rcases mem_activeOnly.mp hb with ⟨hbdb, hbact⟩
      by_cases hbid : b.id = u.id
      · rw [hid b hbdb hbid, htok]
        simp [hne]
      · rw [honly b hbdb hbid]
        simp
    unfold resetPassword
    dsimp only
    rw [hnone]
  · intro nowB hnb pwB saltB
    have hlate : ¬ nowB < expMs := by omega
    have hnone : findByResetToken db (sha256Hex secret) nowB = none := by
      apply find?_eq_none_of
      intro b hb
      rcases mem_activeOnly.mp hb with ⟨hbdb, hbact⟩
      by_cases hbid : b.id = u.id
      · rw [hid b hbdb hbid, htok, hexp]
        simp [hlate]
      · rw [honly b hbdb hbid]
        simp
    unfold resetPassword
    dsimp only
    rw [hnone]

/-- C4 witness: a concrete successful consume of the correct secret. -/
theorem C4_witness :
    resetPassword [cUserR] cSecret "newpass123" "newpass123" 1000 5 "sec" 3600 =
      (saveUser [cUserR] cSaved, .ok (signToken 7 1000 "sec" 3600, cSaved)) :=
  (C4_reset_single_use [cUserR] cUserR cSecret "newpass123" 600000 1000 5 "sec" 3600
    cSaved (by decide) (by decide) (by decide) (by decide) (by decide)
    (by decide) (by decide) (by decide) rfl).1

end Natours
